import Mathlib

/-!
Verification of the A2A task-protocol engine of the Advanced-AI-Agency-System
repository, shallowly embedded from `src/agency/communication/a2a_server.py`
and `src/agency/agent_factory.py`.

Python dicts carrying protocol data are embedded as structures; a dict key
that the source may leave absent is embedded as an `Option` field (with
`none` = key absent), and `dict.get(k, default)` becomes `Option.getD`.
The mutable `self.tasks` dict becomes an explicit association list threaded
through the handlers.  String helpers (`str.split()`, `" ".join`,
`str.lower`, the `in` substring test) are re-defined structurally over
`List Char` so that every definition reduces in the kernel.
-/

set_option autoImplicit false

namespace A2A

/-! ### Data model: parts, messages, tasks -/

/-- One entry of a message's `parts` list.  `text` carries the value of the
`"text"` key (absent key read as `""` by the handlers); `file` carries the
value of `file.get("file_name")`, with `""` for an absent or empty name
(the source only ever tests its truthiness and appends it, so this is
observationally exact); `data` parts are only counted; `other` is a part
whose `type` tag is none of the three recognized ones. -/
inductive Part where
  | text (t : String)
  | file (fileName : String)
  | data
  | other
deriving DecidableEq

/-- One conversational turn: the `role` and `parts` keys of a message dict. -/
structure Message where
  role : String
  parts : List Part
deriving DecidableEq

/-- A task dict as built by the handlers.  `created_at` / `updated_at` are
`Option` because the source's task dicts may simply lack those keys;
`none` models an absent key. -/
structure Task where
  id : String
  state : String
  messages : List Message
  artifacts : List Unit := []
  created_at : Option String := none
  updated_at : Option String := none
deriving DecidableEq

/-! ### Python string helpers, embedded structurally -/

/-- Whitespace characters recognized by Python's `str.split()` (ASCII range). -/
def pyIsSpace (c : Char) : Bool :=
  c = ' ' || c = '\t' || c = '\n' || c = '\r' || c = '\x0b' || c = '\x0c'

/-- Worker for `pyWords`: scans the characters, accumulating the current word
in reverse. -/
def wordsAux : List Char → List Char → List String
  | [], acc => if acc.isEmpty then [] else [⟨acc.reverse⟩]
  | c :: cs, acc =>
    if pyIsSpace c then
      if acc.isEmpty then wordsAux cs [] else ⟨acc.reverse⟩ :: wordsAux cs []
    else
      wordsAux cs (c :: acc)

/-- Python `text.split()`: whitespace-delimited words, empty strings dropped. -/
def pyWords (s : String) : List String :=
  wordsAux s.data []

/-- Python `sep.join(xs)`. -/
def joinWith (sep : String) : List String → String
  | [] => ""
  | [w] => w
  | w :: ws => w ++ sep ++ joinWith sep ws

/-- Python `" ".join(xs)`, the join used by `_chunk_text`. -/
def joinSp (ws : List String) : String :=
  joinWith " " ws

/-- Python `str.lower()` (character-wise, as the source only feeds it ASCII). -/
def pyLower (s : String) : String :=
  ⟨s.data.map Char.toLower⟩

/-- Worker for the Python substring test `needle in hay`. -/
def pyInAux (needle : List Char) : List Char → Bool
  | [] => needle.isEmpty
  | c :: t => needle.isPrefixOf (c :: t) || pyInAux needle t

/-- Python `needle in hay` on strings (substring containment). -/
def pyIn (needle hay : String) : Bool :=
  pyInAux needle.data hay.data

/-! ### `_chunk_text` (a2a_server.py lines 500-524) -/

/-- The loop of `_chunk_text`: greedily pack words into `current_chunk`,
closing the chunk as soon as the single-space join of the accumulated words
reaches `chunkSize` characters; a nonempty leftover is flushed at the end. -/
def chunkLoop (chunkSize : Nat) : List String → List String → List String
  | [], cur => if cur.isEmpty then [] else [joinSp cur]
  | w :: ws, cur =>
    let cur' := cur ++ [w]
    if chunkSize ≤ (joinSp cur').length then
      joinSp cur' :: chunkLoop chunkSize ws []
    else
      chunkLoop chunkSize ws cur'

/-- `_chunk_text(text, chunk_size)`. -/
def chunkText (text : String) (chunkSize : Nat) : List String :=
  chunkLoop chunkSize (pyWords text) []

/-! ### Agent records and the mock response generators -/

/-- An agent dict as held by the registry.  Every field read by the server
goes through `dict.get` with a default, so each is an `Option` with `none`
for an absent key. -/
structure AgentInfo where
  id : Option String := none
  name : Option String := none
  description : Option String := none
  skills : Option (List String) := none
  status : Option String := none
  created_at : Option String := none
  updated_at : Option String := none
deriving DecidableEq

/-- `_generate_agent_response` (a2a_server.py lines 811-843).  `agents` is
the registry listing `self.registry.list_agents()`, whose length is
interpolated by the list branch. -/
def generateAgentResponse (agent : AgentInfo) (agents : List AgentInfo)
    (message_text : String) (file_parts : List String) (data_parts : Nat) : String :=
  let agent_name := agent.name.getD "Agent"
  let agent_description := agent.description.getD ""
  let agent_skills := agent.skills.getD []
  let low := pyLower message_text
  if pyIn "create" low && pyIn "agent" low then
    "I\x27m " ++ agent_name ++ ". I\x27d be happy to help with creating a new agent. Please provide details like the name, description, and skills for the new agent."
  else if pyIn "list" low && pyIn "agent" low then
    "I\x27m " ++ agent_name ++ ". I can list all available agents. Currently, there are " ++ toString agents.length ++ " agents registered in the system."
  else if pyIn "file" low && !file_parts.isEmpty then
    let fn := file_parts.headD ""
    "I\x27m " ++ agent_name ++ ". I received your file" ++ (if fn = "" then "" else " " ++ fn) ++ ". I\x27ll process it according to my capabilities: " ++ joinWith ", " agent_skills ++ "."
  else if pyIn "data" low && decide (0 < data_parts) then
    "I\x27m " ++ agent_name ++ ". I received your structured data. I\x27ll analyze it based on my expertise in: " ++ joinWith ", " agent_skills ++ "."
  else
    "I\x27m " ++ agent_name ++ ", specialized in " ++ joinWith ", " agent_skills ++ ". " ++ agent_description ++ " How can I assist you today?"

/-- `_generate_agency_response` (a2a_server.py lines 845-889). -/
def generateAgencyResponse (agents : List AgentInfo)
    (message_text : String) (file_parts : List String) (data_parts : Nat) : String :=
  let low := pyLower message_text
  if pyIn "create" low && pyIn "agent" low then
    "I am the AI Agency. I can help you create a new agent. To create an agent, I need the following information:\n- Name for the agent\n- Description of its purpose\n- List of skills it should have\n- (Optional) Specific model to use"
  else if pyIn "list" low && pyIn "agent" low then
    if !agents.isEmpty then
      let agent_list := joinWith "\n" ((agents.take 5).map fun a => "- " ++ a.name.getD "" ++ ": " ++ a.description.getD "")
      "Here are the available agents:\n" ++ agent_list ++ "\n\nThere are " ++ toString agents.length ++ " agents in total."
    else
      "There are no agents currently registered in the system."
  else if pyIn "file" low && !file_parts.isEmpty then
    let fn := file_parts.headD ""
    "I received your file" ++ (if fn = "" then "" else " " ++ fn) ++ ". How would you like me to process it? I can create specialized agents for handling this type of data."
  else if pyIn "data" low && decide (0 < data_parts) then
    "I received your structured data. I can create specialized agents for analyzing this kind of information or forward it to an existing agent. What would you like to do?"
  else
    "I am the AI Agency. I can help you create and manage AI agents. My capabilities include:\n- Creating specialized agents for specific tasks\n- Managing existing agents (listing, updating, deleting)\n- Facilitating communication between agents\n\nHow can I assist you today?"

/-! ### JSON-RPC request model -/

/-- A JSON scalar, as used for the correlation `id`. -/
inductive JVal where
  | null
  | bool (b : Bool)
  | num (n : Int)
  | str (s : String)
deriving DecidableEq

/-- Python truthiness of a JSON scalar. -/
def JVal.truthy : JVal → Bool
  | .null => false
  | .bool b => b
  | .num n => n != 0
  | .str s => s != ""

/-- Truthiness of `json_rpc.get("method")`: absent or empty string is falsy. -/
def truthyOptStr : Option String → Bool
  | none => false
  | some s => s != ""

/-- Truthiness of `json_rpc.get("id")`: absent (or JSON null, which Python
also reads back as `None`) is falsy, otherwise scalar truthiness. -/
def truthyOptJ : Option JVal → Bool
  | none => false
  | some v => v.truthy

/-- The `params` object: the two keys the handlers read. -/
structure RpcParams where
  task_id : Option String := none
  message : Option Message := none
deriving DecidableEq

/-- A parsed JSON-RPC request body.  `none` fields model absent keys. -/
structure RpcRequest where
  method : Option String := none
  params : Option RpcParams := none
  id : Option JVal := none
deriving DecidableEq

/-- Python f-string rendering of an `Option String` (`None` prints as
`"None"`), used by the task-not-found error messages. -/
def fmtOptStr : Option String → String
  | none => "None"
  | some s => s

/-! ### The task store (`self.tasks`, a Python dict) -/

/-- The in-memory task store: an insertion-ordered association list. -/
def Store := List (String × Task)

instance : DecidableEq Store := inferInstanceAs (DecidableEq (List (String × Task)))

/-- Dict lookup `self.tasks[k]` / `k in self.tasks`. -/
def storeGet : Store → String → Option Task
  | [], _ => none
  | (k', v) :: rest, k => if k' = k then some v else storeGet rest k

/-- Dict assignment `self.tasks[k] = v`: replaces in place, else appends. -/
def storeSet : Store → String → Task → Store
  | [], k, v => [(k, v)]
  | (k', v') :: rest, k, v =>
    if k' = k then (k, v) :: rest else (k', v') :: storeSet rest k v

/-! ### Results and responses -/

/-- The summary built per task by `_handle_tasks_list`. -/
structure TaskSummary where
  id : String
  state : String
  message_count : Nat
  created_at : String
  updated_at : String
deriving DecidableEq

/-- The `agent/info` result for a single agent. -/
structure AgentInfoResult where
  id : String
  name : String
  description : String
  skills : List String
  status : String
  created_at : String
  updated_at : String
deriving DecidableEq

/-- The `agent/info` result for the agency. -/
structure AgencyInfoResult where
  id : String
  name : String
  description : String
  skills : List String
  agent_count : Nat
  version : String
deriving DecidableEq

/-- The observable HTTP response of a POST handler.  `plainError` is a bare
`JSONResponse` carrying only an `error` string (no JSON-RPC envelope);
`rpcError` is the JSON-RPC error envelope with its numeric code, message,
echoed id and HTTP status; the remaining constructors are JSON-RPC success
envelopes (HTTP 200), with `sse` the event-stream response whose events
each wrap one task snapshot. -/
inductive A2AResponse where
  | plainError (msg : String) (status : Nat)
  | rpcError (code : Int) (msg : String) (rid : JVal) (status : Nat)
  | rpcTask (t : Task) (rid : JVal)
  | rpcTaskList (l : List TaskSummary) (rid : JVal)
  | rpcAgentInfo (i : AgentInfoResult) (rid : JVal)
  | rpcAgencyInfo (i : AgencyInfoResult) (rid : JVal)
  | sse (events : List Task) (rid : JVal)
deriving DecidableEq

/-- Whether a response is a JSON-RPC error envelope (carrying a numeric
code), as opposed to a bare `error`-string body or a success. -/
def A2AResponse.isRpcError : A2AResponse → Bool
  | .rpcError _ _ _ _ => true
  | _ => false

/-! ### Message-content extraction (the parts loop of the send handlers) -/

/-- Accumulator of the `for part in message.get("parts", [])` loop. -/
structure Extracted where
  message_text : String
  file_parts : List String
  data_parts : Nat
deriving DecidableEq

/-- The extraction loop shared verbatim by all four send handlers. -/
def extractParts (parts : List Part) : Extracted :=
  parts.foldl
    (fun acc p =>
      match p with
      | .text t => { acc with message_text := acc.message_text ++ t }
      | .file fn => { acc with file_parts := acc.file_parts ++ [fn] }
      | .data => { acc with data_parts := acc.data_parts + 1 }
      | .other => acc)
    ⟨"", [], 0⟩

/-- `params.get("message", {})`: an absent message key is read as the empty
dict, whose `role` and `parts` keys are in turn absent. -/
def getMessage (m : Option Message) : Message :=
  m.getD ⟨"", []⟩

/-- `task_id = params.get("task_id"); if not task_id: task_id = str(uuid.uuid4())`.
The fresh uuid is supplied by the environment as `freshId`. -/
def resolveTaskId (p : Option String) (freshId : String) : String :=
  match p with
  | none => freshId
  | some s => if s = "" then freshId else s

/-! ### tasks/send (agent: lines 353-414, agency: lines 526-586) -/

/-- The response text computed by `_handle_tasks_send` for an agent. -/
def sendResponseText (agent : AgentInfo) (agents : List AgentInfo) (msg : Message) : String :=
  let e := extractParts msg.parts
  generateAgentResponse agent agents e.message_text e.file_parts e.data_parts

/-- The response text computed by `_handle_agency_tasks_send`. -/
def agencySendResponseText (agents : List AgentInfo) (msg : Message) : String :=
  let e := extractParts msg.parts
  generateAgencyResponse agents e.message_text e.file_parts e.data_parts

/-- The completed task dict built by the synchronous send handlers. -/
def mkSendTask (taskId : String) (msg : Message) (respText : String) : Task :=
  { id := taskId, state := "completed",
    messages := [msg, ⟨"agent", [Part.text respText]⟩], artifacts := [] }

/-- `_handle_tasks_send` for an agent. -/
def handleTasksSend (freshId : String) (rid : JVal) (params : RpcParams)
    (agent : AgentInfo) (agents : List AgentInfo) (store : Store) : A2AResponse × Store :=
  let taskId := resolveTaskId params.task_id freshId
  let msg := getMessage params.message
  let task := mkSendTask taskId msg (sendResponseText agent agents msg)
  (.rpcTask task rid, storeSet store taskId task)

/-- `_handle_agency_tasks_send`. -/
def handleAgencyTasksSend (freshId : String) (rid : JVal) (params : RpcParams)
    (agents : List AgentInfo) (store : Store) : A2AResponse × Store :=
  let taskId := resolveTaskId params.task_id freshId
  let msg := getMessage params.message
  let task := mkSendTask taskId msg (agencySendResponseText agents msg)
  (.rpcTask task rid, storeSet store taskId task)

/-! ### tasks/sendSubscribe and the streaming loop (lines 416-498, 588-669) -/

/-- The initial `working` task stored before streaming begins. -/
def mkInitialTask (taskId : String) (msg : Message) : Task :=
  { id := taskId, state := "working", messages := [msg], artifacts := [] }

/-- First chunk: append a new agent-role message holding the chunk text. -/
def appendAgentChunk (t : Task) (c : String) : Task :=
  { t with messages := t.messages ++ [⟨"agent", [Part.text c]⟩] }

/-- `task["messages"][-1]["parts"][0]["text"] += chunk` on the parts list.
In the streaming flow the head part always is the text part created by the
first chunk; any other shape is left unchanged (unreachable there). -/
def extendTextHead : List Part → String → List Part
  | .text s :: rest, c => .text (s ++ c) :: rest
  | ps, _ => ps

/-- Apply `extendTextHead` to the last message of the list. -/
def extendLastMessage : List Message → String → List Message
  | [], _ => []
  | [m], c => [{ m with parts := extendTextHead m.parts c }]
  | m :: ms, c => m :: extendLastMessage ms c

/-- Subsequent chunk: extend the text of the last message in place. -/
def extendAgentChunk (t : Task) (c : String) : Task :=
  { t with messages := extendLastMessage t.messages c }

/-- The chunk loop of `stream_response`: one task snapshot is emitted per
chunk; the snapshot of the final chunk first flips the state to
`completed`.  The loop never reads the task state. -/
def chunkEvents : Task → Bool → List String → List Task
  | _, _, [] => []
  | t, first, c :: cs =>
    let t1 := if first then appendAgentChunk t c else extendAgentChunk t c
    let t2 := if cs.isEmpty then { t1 with state := "completed" } else t1
    t2 :: chunkEvents t2 false cs

/-- All snapshots emitted by `stream_response`: the initial task, then one
snapshot per chunk. -/
def streamEvents (t0 : Task) (chunks : List String) : List Task :=
  t0 :: chunkEvents t0 true chunks

/-- `_handle_tasks_send_subscribe` for an agent: stores the initial task and
answers with the SSE event sequence the generator will emit.  (The stored
dict is aliased by the generator, which keeps mutating it as it streams.) -/
def handleTasksSendSubscribe (freshId : String) (rid : JVal) (params : RpcParams)
    (agent : AgentInfo) (agents : List AgentInfo) (store : Store) : A2AResponse × Store :=
  let taskId := resolveTaskId params.task_id freshId
  let msg := getMessage params.message
  let t0 := mkInitialTask taskId msg
  let chunks := chunkText (sendResponseText agent agents msg) 50
  (.sse (streamEvents t0 chunks) rid, storeSet store taskId t0)

/-- `_handle_agency_tasks_send_subscribe`. -/
def handleAgencyTasksSendSubscribe (freshId : String) (rid : JVal) (params : RpcParams)
    (agents : List AgentInfo) (store : Store) : A2AResponse × Store :=
  let taskId := resolveTaskId params.task_id freshId
  let msg := getMessage params.message
  let t0 := mkInitialTask taskId msg
  let chunks := chunkText (agencySendResponseText agents msg) 50
  (.sse (streamEvents t0 chunks) rid, storeSet store taskId t0)

/-- The chunk loop with a concurrent `tasks/cancel` interleaved: the cancel
handler runs during one of the pauses between event emissions and sets the
aliased task's state to `canceled`.  `pending = some n` means the cancel
fires during the pause before processing the `(n+1)`-th remaining chunk
(`some 0`: immediately before the next one); `none` means it already fired.
The loop body itself is exactly `chunkEvents`, which never reads the state. -/
def chunkEventsCancelAt : Task → Bool → List String → Option Nat → List Task
  | _, _, [], _ => []
  | t, first, c :: cs, pending =>
    let canceledNow : Task × Option Nat :=
      match pending with
      | some 0 => ({ t with state := "canceled" }, none)
      | some (n + 1) => (t, some n)
      | none => (t, none)
    let t0 := canceledNow.1
    let t1 := if first then appendAgentChunk t0 c else extendAgentChunk t0 c
    let t2 := if cs.isEmpty then { t1 with state := "completed" } else t1
    t2 :: chunkEventsCancelAt t2 false cs canceledNow.2

/-- The full event sequence when a `tasks/cancel` for the streaming task
arrives after `k + 1` events have been emitted (`k = 0`: during the pause
right after the initial snapshot). -/
def streamEventsCancelAfter (t0 : Task) (chunks : List String) (k : Nat) : List Task :=
  t0 :: chunkEventsCancelAt t0 true chunks (some k)

/-! ### tasks/get, tasks/cancel, tasks/list, info (lines 671-809) -/

/-- The error message `f"Task with ID {task_id} not found"`. -/
def taskNotFoundMsg (p : Option String) : String :=
  "Task with ID " ++ fmtOptStr p ++ " not found"

/-- `_handle_tasks_get`: `if not task_id or task_id not in self.tasks`. -/
def handleTasksGet (rid : JVal) (params : RpcParams) (store : Store) : A2AResponse × Store :=
  match params.task_id with
  | none => (.rpcError (-32602) (taskNotFoundMsg none) rid 404, store)
  | some s =>
    if s = "" then (.rpcError (-32602) (taskNotFoundMsg (some s)) rid 404, store)
    else
      match storeGet store s with
      | none => (.rpcError (-32602) (taskNotFoundMsg (some s)) rid 404, store)
      | some t => (.rpcTask t rid, store)

/-- `_handle_tasks_cancel`: same not-found test, then unconditionally sets
the state of the stored task to `canceled` and returns it. -/
def handleTasksCancel (rid : JVal) (params : RpcParams) (store : Store) : A2AResponse × Store :=
  match params.task_id with
  | none => (.rpcError (-32602) (taskNotFoundMsg none) rid 404, store)
  | some s =>
    if s = "" then (.rpcError (-32602) (taskNotFoundMsg (some s)) rid 404, store)
    else
      match storeGet store s with
      | none => (.rpcError (-32602) (taskNotFoundMsg (some s)) rid 404, store)
      | some t =>
        let t' := { t with state := "canceled" }
        (.rpcTask t' rid, storeSet store s t')

/-- The summary built for one `(task_id, task)` store entry. -/
def summarize (kv : String × Task) : TaskSummary :=
  { id := kv.1, state := kv.2.state, message_count := kv.2.messages.length,
    created_at := kv.2.created_at.getD "", updated_at := kv.2.updated_at.getD "" }

/-- `_handle_tasks_list`. -/
def handleTasksList (rid : JVal) (store : Store) : A2AResponse × Store :=
  (.rpcTaskList (store.map summarize) rid, store)

/-- `_handle_agent_info`. -/
def handleAgentInfo (rid : JVal) (agent : AgentInfo) (store : Store) : A2AResponse × Store :=
  (.rpcAgentInfo
    { id := agent.id.getD "", name := agent.name.getD "",
      description := agent.description.getD "", skills := agent.skills.getD [],
      status := agent.status.getD "active",
      created_at := agent.created_at.getD "", updated_at := agent.updated_at.getD "" }
    rid, store)

/-- `_handle_agency_info`. -/
def handleAgencyInfo (rid : JVal) (agents : List AgentInfo) (store : Store) : A2AResponse × Store :=
  (.rpcAgencyInfo
    { id := "ai-agency", name := "AI Agency",
      description := "Autonomous AI Agency that can create and manage other agents",
      skills := ["agent_creation", "agent_management", "inter_agent_communication"],
      agent_count := agents.length, version := "1.0.0" }
    rid, store)

/-! ### Dispatch (handle_agent_request lines 216-287, handle_agency_request 289-351) -/

/-- The method dispatch chain shared by both POST handlers, after envelope
validation.  `sendM` and `subscribeM` are the scope-specific send handlers,
`infoM` the scope-specific info handler. -/
def dispatchBody (rpc : RpcRequest) (store : Store)
    (sendM subscribeM : JVal → RpcParams → Store → A2AResponse × Store)
    (infoM : JVal → Store → A2AResponse × Store) : A2AResponse × Store :=
  let params := rpc.params.getD {}
  let rid := rpc.id.getD .null
  if !truthyOptStr rpc.method || !truthyOptJ rpc.id then
    (.rpcError (-32600) "Invalid Request" rid 400, store)
  else
    let m := rpc.method.getD ""
    if m = "tasks/send" then sendM rid params store
    else if m = "tasks/sendSubscribe" then subscribeM rid params store
    else if m = "tasks/get" then handleTasksGet rid params store
    else if m = "tasks/cancel" then handleTasksCancel rid params store
    else if m = "tasks/list" then handleTasksList rid store
    else if m = "agent/info" then infoM rid store
    else (.rpcError (-32601) ("Method not found: " ++ m) rid 404, store)

/-- `handle_agent_request`: API-key check, agent resolution, JSON parse
(`body = none` models a malformed body), envelope validation, dispatch.
`authOk` is the verdict of `verify_api_key`, `agentLookup` the verdict of
`self.registry.get_agent(agent_id)`, `agents` the registry listing consumed
by the mock generator, and `freshId` the uuid drawn for a missing task id. -/
def handleAgentRequest (authOk : Bool) (agentId : String) (agentLookup : Option AgentInfo)
    (body : Option RpcRequest) (freshId : String) (agents : List AgentInfo)
    (store : Store) : A2AResponse × Store :=
  if !authOk then (.plainError "Invalid or missing API key" 401, store)
  else
    match agentLookup with
    | none => (.plainError ("Agent with ID " ++ agentId ++ " not found") 404, store)
    | some agent =>
      match body with
      | none => (.plainError "Invalid JSON" 400, store)
      | some rpc =>
        dispatchBody rpc store
          (fun rid params st => handleTasksSend freshId rid params agent agents st)
          (fun rid params st => handleTasksSendSubscribe freshId rid params agent agents st)
          (fun rid st => handleAgentInfo rid agent st)

/-- `handle_agency_request`: identical shape, agency-scoped handlers. -/
def handleAgencyRequest (authOk : Bool) (body : Option RpcRequest) (freshId : String)
    (agents : List AgentInfo) (store : Store) : A2AResponse × Store :=
  if !authOk then (.plainError "Invalid or missing API key" 401, store)
  else
    match body with
    | none => (.plainError "Invalid JSON" 400, store)
    | some rpc =>
      dispatchBody rpc store
        (fun rid params st => handleAgencyTasksSend freshId rid params agents st)
        (fun rid params st => handleAgencyTasksSendSubscribe freshId rid params agents st)
        (fun rid st => handleAgencyInfo rid agents st)

/-! ### Lemmas about `joinSp` and the chunking loop -/

theorem joinSp_cons_cons (w a : String) (l : List String) :
    joinSp (w :: a :: l) = w ++ " " ++ joinSp (a :: l) := rfl

theorem joinSp_singleton (w : String) : joinSp [w] = w := rfl

theorem joinSp_cons_of_ne_nil (w : String) (l : List String) (h : l ≠ []) :
    joinSp (w :: l) = w ++ " " ++ joinSp l := by
  cases l with
  | nil => exact absurd rfl h
  | cons a t => rfl

theorem joinSp_append (xs ys : List String) (hx : xs ≠ []) (hy : ys ≠ []) :
    joinSp (xs ++ ys) = joinSp xs ++ " " ++ joinSp ys := by
  induction xs with
  | nil => exact absurd rfl hx
  | cons x xs ih =>
    cases xs with
    | nil =>
      cases ys with
      | nil => exact absurd rfl hy
      | cons y l => rfl
    | cons a l =>
      have hrec := ih (by simp)
      calc joinSp ((x :: a :: l) ++ ys)
          = x ++ " " ++ joinSp ((a :: l) ++ ys) := rfl
        _ = x ++ " " ++ (joinSp (a :: l) ++ " " ++ joinSp ys) := by rw [hrec]
        _ = joinSp (x :: a :: l) ++ " " ++ joinSp ys := by
              rw [joinSp_cons_cons]; simp [String.append_assoc]

theorem chunkLoop_ne_nil (n : Nat) (ws cur : List String)
    (h : cur ≠ [] ∨ ws ≠ []) : chunkLoop n ws cur ≠ [] := by
  induction ws generalizing cur with
  | nil =>
    have hc : cur ≠ [] := h.resolve_right (by simp)
    simp only [chunkLoop]
    rw [if_neg (by simpa [List.isEmpty_iff] using hc)]
    simp
  | cons w ws ih =>
    simp only [chunkLoop]
    by_cases hl : n ≤ (joinSp (cur ++ [w])).length
    · rw [if_pos hl]; simp
    · rw [if_neg hl]
      exact ih (cur ++ [w]) (Or.inl (by simp))

theorem joinSp_chunkLoop (n : Nat) (ws cur : List String) :
    joinSp (chunkLoop n ws cur) = joinSp (cur ++ ws) := by
  induction ws generalizing cur with
  | nil =>
    cases cur with
    | nil => rfl
    | cons c l =>
      simp only [chunkLoop, List.isEmpty_cons, if_neg]
      simp [joinSp_singleton]
  | cons w ws ih =>
    simp only [chunkLoop]
    by_cases hl : n ≤ (joinSp (cur ++ [w])).length
    · rw [if_pos hl]
      by_cases hw : ws = []
      · subst hw
        show joinSp [joinSp (cur ++ [w])] = joinSp (cur ++ [w])
        exact joinSp_singleton _
      · have hne : chunkLoop n ws [] ≠ [] := chunkLoop_ne_nil n ws [] (Or.inr hw)
        rw [joinSp_cons_of_ne_nil _ _ hne, ih [], List.nil_append,
          ← joinSp_append (cur ++ [w]) ws (by simp) hw]
        simp
    · rw [if_neg hl, ih (cur ++ [w])]
      simp

theorem chunkLoop_dropLast_length (n : Nat) (ws cur : List String) :
    ∀ c ∈ (chunkLoop n ws cur).dropLast, n ≤ c.length := by
  induction ws generalizing cur with
  | nil =>
    simp only [chunkLoop]
    split <;> simp
  | cons w ws ih =>
    simp only [chunkLoop]
    by_cases hl : n ≤ (joinSp (cur ++ [w])).length
    · rw [if_pos hl]
      cases hr : chunkLoop n ws [] with
      | nil =>
        intro c hc
        have : c ∈ ([] : List String) := hc
        simp at this
      | cons r rs =>
        intro c hc
        have hc2 : c ∈ joinSp (cur ++ [w]) :: (r :: rs).dropLast := hc
        rcases List.mem_cons.mp hc2 with h | h
        · exact h ▸ hl
        · exact ih [] c (by rw [hr]; exact h)
    · rw [if_neg hl]
      exact ih (cur ++ [w])

theorem chunkLoop_groups (n : Nat) (ws cur : List String) :
    ∃ gs : List (List String),
      gs.flatten = cur ++ ws ∧ (∀ g ∈ gs, g ≠ []) ∧ chunkLoop n ws cur = gs.map joinSp := by
  induction ws generalizing cur with
  | nil =>
    cases cur with
    | nil => exact ⟨[], by simp, by simp, rfl⟩
    | cons c l =>
      refine ⟨[c :: l], by simp, by simp, ?_⟩
      simp [chunkLoop]
  | cons w ws ih =>
    by_cases hl : n ≤ (joinSp (cur ++ [w])).length
    · obtain ⟨gs, hj, hne, he⟩ := ih []
      refine ⟨(cur ++ [w]) :: gs, ?_, ?_, ?_⟩
      · simp [hj]
      · intro g hg
        rcases List.mem_cons.mp hg with h | h
        · subst h; simp
        · exact hne g h
      · simp only [chunkLoop, if_pos hl, List.map_cons]
        rw [← he]
    · obtain ⟨gs, hj, hne, he⟩ := ih (cur ++ [w])
      refine ⟨gs, ?_, hne, ?_⟩
      · rw [hj]; simp
      · simp only [chunkLoop, if_neg hl]
        exact he

/-! ### Claim C2 -/

/-- C2, corrected.  `_chunk_text` with minimum size 50 yields word-aligned
chunks (each chunk is the single-space join of a group of consecutive
words of the text, groups nonempty and partitioning the word list), every
chunk except possibly the last is at least 50 characters long, and
re-joining the chunks with single spaces reconstructs the single-space
join of the words of the text — the whitespace-normalized text, which
equals the original exactly when the original is already normalized.  (The
original claim's "reconstructs the original response_text exactly" fails
for non-normalized input; see the counterexample.) -/
theorem c2_chunking_amended (t : String) :
    (∃ gs : List (List String), gs.flatten = pyWords t ∧ (∀ g ∈ gs, g ≠ []) ∧
      chunkText t 50 = gs.map joinSp)
    ∧ (∀ c ∈ (chunkText t 50).dropLast, 50 ≤ c.length)
    ∧ joinSp (chunkText t 50) = joinSp (pyWords t)
    ∧ (joinSp (pyWords t) = t → joinSp (chunkText t 50) = t) := by
  refine ⟨?_, ?_, ?_, ?_⟩
  · simpa using chunkLoop_groups 50 (pyWords t) []
  · exact chunkLoop_dropLast_length 50 (pyWords t) []
  · simpa using joinSp_chunkLoop 50 (pyWords t) []
  · intro h
    have := joinSp_chunkLoop 50 (pyWords t) []
    simp only [List.nil_append] at this
    exact this.trans h

/-- Witness for `c2_chunking_amended` at the concrete text `"hello world"`
(already normalized, so re-joining gives it back verbatim). -/
theorem c2_chunking_amended_witness :
    joinSp (chunkText "hello world" 50) = "hello world" :=
  (c2_chunking_amended "hello world").2.2.2 (by decide)

/-- C2 counterexample: on the text `"a\nb"` the chunker returns the single
chunk `"a b"`, and re-joining the chunks with single spaces yields `"a b"`,
not the original text — re-joining does not reconstruct the original
response text exactly. -/
theorem c2_rejoin_counterexample :
    chunkText "a\nb" 50 = ["a b"] ∧ joinSp (chunkText "a\nb" 50) ≠ "a\nb" := by
  constructor
  · decide
  · decide

/-! ### Concrete demonstration inputs and text extractors -/

/-- A registry entry whose default mock response is 112 characters long and
therefore streams as three chunks. -/
def demoAgent : AgentInfo :=
  { id := some "a1"
    name := some "A"
    description := some "the quick brown fox jumps over the lazy dog again and again"
    skills := some ["x"] }

/-- A plain one-text-part user message that hits the generator's default
branch. -/
def demoMsg : Message := ⟨"user", [Part.text "hi"]⟩

/-- The request params used by the demonstrations. -/
def demoParams : RpcParams := { task_id := some "t1", message := some demoMsg }

/-- The text of the head part of the last message of a task, when that part
is a text part — the content a client reads off a task snapshot. -/
def lastAgentText (t : Task) : Option String :=
  t.messages.getLast?.bind fun m =>
    m.parts.head?.bind fun p =>
      match p with
      | .text s => some s
      | _ => none

/-- The delivered text of the final event of an SSE response. -/
def sseFinalText : A2AResponse → Option String
  | .sse events _ => events.getLast?.bind lastAgentText
  | _ => none

/-- The delivered text of a synchronous task response. -/
def taskRespText : A2AResponse → Option String
  | .rpcTask t _ => lastAgentText t
  | _ => none

/-! ### Claim C1 -/

/-- C1, exhibiting the code bug.  For the demo agent and message, the
synchronous `tasks/send` and the streamed `tasks/sendSubscribe` receive
identical input, the response streams as three chunks, yet the text
delivered by the final stream event differs from the synchronous
response text: the loop extends the agent message with `+= chunk` and so
drops the space at every chunk boundary, while the claim (and spec)
require the delivered contents to be equal. -/
theorem c1_streaming_text_differs :
    2 ≤ (chunkText (sendResponseText demoAgent [] demoMsg) 50).length
    ∧ sseFinalText (handleTasksSendSubscribe "f" (.str "1") demoParams demoAgent [] []).1
        ≠ taskRespText (handleTasksSend "f" (.str "1") demoParams demoAgent [] []).1 := by
  constructor
  · decide
  · decide

/-! ### Claim C3 -/

/-- The event trace of the demo stream when a concurrent `tasks/cancel`
lands during the pause right after the first chunk event (two events
emitted, two chunks still pending). -/
def c3Events : List Task :=
  streamEventsCancelAfter (mkInitialTask "t1" demoMsg)
    (chunkText (sendResponseText demoAgent [] demoMsg) 50) 1

/-- C3, exhibiting the code bug.  After the cancel, the streaming loop —
which never reads the task state — emits both remaining chunk events
(four events total for three chunks), and the final event carries state
`completed`, overwriting the cancellation; the claim (and spec) require
the stream to stop with a final `canceled` snapshot and no later
`completed` event. -/
theorem c3_cancel_ignored_by_stream :
    c3Events.length = 4
    ∧ (c3Events[2]?).map Task.state = some "canceled"
    ∧ (c3Events.getLast?).map Task.state = some "completed" := by
  refine ⟨by decide, by decide, by decide⟩

/-! ### Claim C4 -/

/-- A task already in the terminal `completed` state, as stored by a prior
`tasks/send`. -/
def c4Task : Task :=
  { id := "t1"
    state := "completed"
    messages := [demoMsg, ⟨"agent", [Part.text "done"]⟩]
    artifacts := [] }

/-- C4 counterexample: `tasks/cancel` on a stored `completed` task does not
leave the state unchanged — the stored task (and the returned one) comes
back with state `canceled`. -/
theorem c4_cancel_completed_counterexample :
    c4Task.state = "completed"
    ∧ (storeGet (handleTasksCancel (.str "1") ⟨some "t1", none⟩ [("t1", c4Task)]).2 "t1").map
        Task.state = some "canceled"
    ∧ (handleTasksCancel (.str "1") ⟨some "t1", none⟩ [("t1", c4Task)]).1
        = .rpcTask { c4Task with state := "canceled" } (.str "1") := by
  refine ⟨by decide, by decide, by decide⟩

/-- C4, corrected.  `_handle_tasks_cancel` performs no terminal-state check:
for any stored task — whatever its state, including `completed` — it
unconditionally overwrites the state with `canceled` and returns the
updated task. -/
theorem c4_cancel_unconditional (rid : JVal) (store : Store) (s : String) (t : Task)
    (pm : Option Message) (hs : s ≠ "") (hget : storeGet store s = some t) :
    handleTasksCancel rid ⟨some s, pm⟩ store =
      (.rpcTask { t with state := "canceled" } rid,
       storeSet store s { t with state := "canceled" }) := by
  simp [handleTasksCancel, hs, hget]

/-- Witness for `c4_cancel_unconditional` on a one-entry store holding a
completed task. -/
theorem c4_cancel_unconditional_witness :
    handleTasksCancel (.str "1") ⟨some "t1", none⟩ [("t1", c4Task)] =
      (.rpcTask { c4Task with state := "canceled" } (.str "1"),
       storeSet [("t1", c4Task)] "t1" { c4Task with state := "canceled" }) :=
  c4_cancel_unconditional (.str "1") [("t1", c4Task)] "t1" c4Task none
    (by decide) (by decide)

/-! ### Claim C5 -/

/-- C5, confirmed.  Every `tasks/send` whose params carry a message returns
a JSON-RPC success wrapping a task with state `completed`, exactly two
messages (the incoming one plus the reply), whose final message has role
`agent` and exactly one part, a text part. -/
theorem c5_tasks_send_shape (freshId : String) (rid : JVal) (tid : Option String)
    (m : Message) (agent : AgentInfo) (agents : List AgentInfo) (store : Store) :
    (handleTasksSend freshId rid ⟨tid, some m⟩ agent agents store).1 =
      .rpcTask (mkSendTask (resolveTaskId tid freshId) m (sendResponseText agent agents m)) rid
    ∧ (mkSendTask (resolveTaskId tid freshId) m (sendResponseText agent agents m)).state
        = "completed"
    ∧ (mkSendTask (resolveTaskId tid freshId) m (sendResponseText agent agents m)).messages.length
        = 2
    ∧ (mkSendTask (resolveTaskId tid freshId) m (sendResponseText agent agents m)).messages.getLast?
        = some ⟨"agent", [Part.text (sendResponseText agent agents m)]⟩ :=
  ⟨rfl, rfl, rfl, rfl⟩

/-! ### Claim C7 -/

/-- C7, corrected.  No handler ever writes `created_at` or `updated_at`:
the task dicts built by `tasks/send` and `tasks/sendSubscribe` lack both
keys, cancellation leaves them untouched, and `_handle_tasks_list` reads
them with an empty-string default, so summaries of such tasks carry empty
strings for both timestamps. -/
theorem c7_no_timestamps (tid : String) (m : Message) (rt : String) (k : String) (t : Task) :
    (mkSendTask tid m rt).created_at = none ∧ (mkSendTask tid m rt).updated_at = none
    ∧ (mkInitialTask tid m).created_at = none ∧ (mkInitialTask tid m).updated_at = none
    ∧ ({ t with state := "canceled" } : Task).created_at = t.created_at
    ∧ ({ t with state := "canceled" } : Task).updated_at = t.updated_at
    ∧ (t.created_at = none → t.updated_at = none →
        summarize (k, t) = ⟨k, t.state, t.messages.length, "", ""⟩) := by
  refine ⟨rfl, rfl, rfl, rfl, rfl, rfl, ?_⟩
  intro h1 h2
  simp [summarize, h1, h2]

/-- Witness for `c7_no_timestamps`: the summary of a freshly created
streaming task carries empty-string timestamps. -/
theorem c7_no_timestamps_witness :
    summarize ("t1", mkInitialTask "t1" demoMsg) = ⟨"t1", "working", 1, "", ""⟩ :=
  (c7_no_timestamps "t1" demoMsg "r" "t1" (mkInitialTask "t1" demoMsg)).2.2.2.2.2.2 rfl rfl

/-- The store produced by a complete `tasks/send` round trip through
`handle_agent_request` for the demo agent. -/
def c7Store : Store :=
  (handleAgentRequest true "a1" (some demoAgent)
    (some { method := some "tasks/send", params := some demoParams, id := some (.str "1") })
    "f" [] []).2

/-- C7 counterexample: the task created by the `tasks/send` round trip has
no `created_at` / `updated_at` keys at all, and the `tasks/list` summary
shows empty strings for both — the timestamps are never set. -/
theorem c7_timestamps_counterexample :
    (storeGet c7Store "t1").map Task.created_at = some none
    ∧ (storeGet c7Store "t1").map Task.updated_at = some none
    ∧ (handleTasksList (.str "2") c7Store).1 =
        .rpcTaskList [⟨"t1", "completed", 2, "", ""⟩] (.str "2") := by
  refine ⟨by decide, by decide, by decide⟩

/-! ### Claim C10 -/

theorem storeGet_storeSet_self (store : Store) (k : String) (v : Task) :
    storeGet (storeSet store k v) k = some v := by
  induction store with
  | nil => simp [storeSet, storeGet]
  | cons p rest ih =>
    obtain ⟨k', v'⟩ := p
    by_cases h : k' = k
    · subst h
      simp [storeSet, storeGet]
    · simp [storeSet, storeGet, h, ih]

/-- C10, confirmed.  A `tasks/send` or `tasks/sendSubscribe` carrying a
(truthy) `task_id` unconditionally overwrites whatever the store held
under that id with the freshly created task — whose value depends only on
the request, not on the prior entry — and neither handler can return an
error. -/
theorem c10_task_id_overwrite (freshId : String) (rid : JVal) (s : String) (m : Message)
    (agent : AgentInfo) (agents : List AgentInfo) (store : Store) (hs : s ≠ "") :
    storeGet (handleTasksSend freshId rid ⟨some s, some m⟩ agent agents store).2 s
      = some (mkSendTask s m (sendResponseText agent agents m))
    ∧ storeGet (handleTasksSendSubscribe freshId rid ⟨some s, some m⟩ agent agents store).2 s
      = some (mkInitialTask s m)
    ∧ (handleTasksSend freshId rid ⟨some s, some m⟩ agent agents store).1
      = .rpcTask (mkSendTask s m (sendResponseText agent agents m)) rid := by
  have hres : resolveTaskId (some s) freshId = s := by simp [resolveTaskId, hs]
  refine ⟨?_, ?_, ?_⟩
  · simp [handleTasksSend, getMessage, hres, storeGet_storeSet_self]
  · simp [handleTasksSendSubscribe, getMessage, hres, storeGet_storeSet_self]
  · simp [handleTasksSend, getMessage, hres]

/-- Witness for `c10_task_id_overwrite`: re-sending with `task_id = "t1"`
on a store already holding a completed task under `"t1"` replaces the
entry with the fresh task. -/
theorem c10_task_id_overwrite_witness :
    storeGet (handleTasksSend "f" (.str "1") ⟨some "t1", some demoMsg⟩
        demoAgent [] [("t1", c4Task)]).2 "t1"
      = some (mkSendTask "t1" demoMsg (sendResponseText demoAgent [] demoMsg)) :=
  (c10_task_id_overwrite "f" (.str "1") "t1" demoMsg demoAgent [] [("t1", c4Task)]
    (by decide)).1

/-! ### Claim C9 -/

/-- C9, confirmed.  Because envelope validation tests Python truthiness
(`if not method or not request_id`), a request whose `id` is present but a
falsy scalar (`0`, `""`, `false`, `null`) or whose `method` is present but
the empty string is rejected with the same Invalid Request error
(code -32600, HTTP 400) as one where the field is absent, by both POST
handlers; only the echoed `id` mirrors the request. -/
theorem c9_falsy_id_rejected (agId : String) (ag : AgentInfo) (freshId : String)
    (agents : List AgentInfo) (store : Store) (m : Option String) (i : Option JVal)
    (pm : Option RpcParams)
    (h : truthyOptStr m = false ∨ truthyOptJ i = false) :
    handleAgentRequest true agId (some ag) (some ⟨m, pm, i⟩) freshId agents store
      = (.rpcError (-32600) "Invalid Request" (i.getD .null) 400, store)
    ∧ handleAgencyRequest true (some ⟨m, pm, i⟩) freshId agents store
      = (.rpcError (-32600) "Invalid Request" (i.getD .null) 400, store) := by
  have hguard : (!truthyOptStr m || !truthyOptJ i) = true := by
    rcases h with h | h <;> simp [h]
  constructor
  · simp [handleAgentRequest, dispatchBody, hguard]
  · simp [handleAgencyRequest, dispatchBody, hguard]

/-- Witness for `c9_falsy_id_rejected` at `id = 0` with a recognized
method. -/
theorem c9_falsy_id_rejected_witness :
    handleAgentRequest true "a1" (some demoAgent)
        (some ⟨some "tasks/send", some demoParams, some (.num 0)⟩) "f" [] []
      = (.rpcError (-32600) "Invalid Request" (.num 0) 400, []) :=
  (c9_falsy_id_rejected "a1" demoAgent "f" [] [] (some "tasks/send") (some (.num 0))
    (some demoParams) (Or.inr (by decide))).1

/-! ### Claim C6 -/

/-- C6 counterexample: an authentication failure and an unknown agent id
both produce bare `error`-string bodies (HTTP 401 / 404) with no JSON-RPC
envelope and no numeric code, contradicting the claim that every failure
of those classes is JSON-RPC-enveloped. -/
theorem c6_auth_error_not_enveloped :
    (handleAgentRequest false "a1" none none "f" [] []).1
      = .plainError "Invalid or missing API key" 401
    ∧ ((handleAgentRequest false "a1" none none "f" [] []).1).isRpcError = false
    ∧ (handleAgentRequest true "a1" none (some {}) "f" [] []).1
      = .plainError "Agent with ID a1 not found" 404
    ∧ ((handleAgentRequest true "a1" none (some {}) "f" [] []).1).isRpcError = false := by
  refine ⟨by decide, by decide, by decide, by decide⟩

/-- C6, corrected.  Only the protocol and task errors are JSON-RPC
enveloped with a numeric code and mirrored HTTP status: missing-or-falsy
`method`/`id` gives -32600/400, an unrecognized method -32601/404, and an
unknown task id -32602/404.  Authentication failure, unknown agent id and
malformed JSON instead produce bare `error`-string bodies with HTTP
status 401, 404 and 400 respectively, outside the envelope. -/
theorem c6_error_paths_amended (agId : String) (ag : AgentInfo) (freshId : String)
    (agents : List AgentInfo) (store : Store) (rpc : RpcRequest) (pm : Option Message) :
    (handleAgentRequest false agId (some ag) (some rpc) freshId agents store).1
      = .plainError "Invalid or missing API key" 401
    ∧ (handleAgencyRequest false (some rpc) freshId agents store).1
      = .plainError "Invalid or missing API key" 401
    ∧ (handleAgentRequest true agId none (some rpc) freshId agents store).1
      = .plainError ("Agent with ID " ++ agId ++ " not found") 404
    ∧ (handleAgentRequest true agId (some ag) none freshId agents store).1
      = .plainError "Invalid JSON" 400
    ∧ ((truthyOptStr rpc.method = false ∨ truthyOptJ rpc.id = false) →
        (handleAgentRequest true agId (some ag) (some rpc) freshId agents store).1
          = .rpcError (-32600) "Invalid Request" (rpc.id.getD .null) 400)
    ∧ (∀ mname : String, ∀ i : JVal, mname ≠ "" → i.truthy = true →
        mname ∉ ["tasks/send", "tasks/sendSubscribe", "tasks/get",
                 "tasks/cancel", "tasks/list", "agent/info"] →
        (handleAgentRequest true agId (some ag)
            (some ⟨some mname, rpc.params, some i⟩) freshId agents store).1
          = .rpcError (-32601) ("Method not found: " ++ mname) i 404)
    ∧ (∀ rid : JVal, (handleTasksGet rid ⟨none, pm⟩ store).1
          = .rpcError (-32602) "Task with ID None not found" rid 404)
    ∧ (∀ rid : JVal, ∀ s : String, s ≠ "" → storeGet store s = none →
        (handleTasksCancel rid ⟨some s, pm⟩ store).1
          = .rpcError (-32602) ("Task with ID " ++ s ++ " not found") rid 404) := by
  refine ⟨?_, ?_, ?_, ?_, ?_, ?_, ?_, ?_⟩
  · simp [handleAgentRequest]
  · simp [handleAgencyRequest]
  · simp [handleAgentRequest]
  · simp [handleAgentRequest]
  · intro h
    have hguard : (!truthyOptStr rpc.method || !truthyOptJ rpc.id) = true := by
      rcases h with h | h <;> simp [h]
    simp [handleAgentRequest, dispatchBody, hguard]
  · intro mname i hne htr hmem
    have h1 : truthyOptStr (some mname) = true := by
      simp [truthyOptStr, hne]
    simp only [List.mem_cons, List.not_mem_nil, or_false, not_or] at hmem
    obtain ⟨hm1, hm2, hm3, hm4, hm5, hm6⟩ := hmem
    simp [handleAgentRequest, dispatchBody, truthyOptJ, h1, htr,
      hm1, hm2, hm3, hm4, hm5, hm6, taskNotFoundMsg]
  · intro rid
    rfl
  · intro rid s hs hget
    simp [handleTasksCancel, hs, hget, taskNotFoundMsg, fmtOptStr]

/-- Witness for `c6_error_paths_amended`: the auth, invalid-request,
method-not-found and task-not-found conjuncts at concrete inputs. -/
theorem c6_error_paths_amended_witness :
    (handleAgentRequest false "a1" (some demoAgent) (some {}) "f" [] []).1
      = .plainError "Invalid or missing API key" 401
    ∧ (handleAgentRequest true "a1" (some demoAgent)
        (some ⟨none, none, some (.str "1")⟩) "f" [] []).1
      = .rpcError (-32600) "Invalid Request" (.str "1") 400
    ∧ (handleAgentRequest true "a1" (some demoAgent)
        (some ⟨some "bogus", none, some (.str "1")⟩) "f" [] []).1
      = .rpcError (-32601) ("Method not found: " ++ "bogus") (.str "1") 404
    ∧ (handleTasksCancel (.str "1") ⟨some "t9", none⟩ []).1
      = .rpcError (-32602) ("Task with ID " ++ "t9" ++ " not found") (.str "1") 404 := by
  refine ⟨?_, ?_, ?_, ?_⟩
  · exact (c6_error_paths_amended "a1" demoAgent "f" [] [] {} none).1
  · exact (c6_error_paths_amended "a1" demoAgent "f" [] []
      ⟨none, none, some (.str "1")⟩ none).2.2.2.2.1 (Or.inl (by decide))
  · exact (c6_error_paths_amended "a1" demoAgent "f" [] []
      ⟨some "bogus", none, some (.str "1")⟩ none).2.2.2.2.2.1 "bogus" (.str "1")
      (by decide) (by decide) (by decide)
  · exact (c6_error_paths_amended "a1" demoAgent "f" [] [] {} none).2.2.2.2.2.2.2
      (.str "1") "t9" (by decide) (by decide)

/-! ### Claim C8: the discovery-card skills list
(`_create_agent_card`, agent_factory.py lines 225-277; the identical
examples loop also appears in `_update_agent_card`, lines 282-326) -/

/-- One entry of the card's `skills` list; `examples` is the optional key
attached by the examples loop. -/
structure SkillEntry where
  name : String
  description : String
  examples : Option (List String) := none
deriving DecidableEq

/-- The comprehension `[{"name": skill, "description": f"Skill in {skill}"}
for skill in agent_info.get("skills", [])]`. -/
def mkSkillEntries (skills : List String) : List SkillEntry :=
  skills.map fun s => { name := s, description := "Skill in " ++ s }

/-- The loop `for skill_idx, skill in enumerate(card["skills"]): if
skill_idx < len(examples): skill["examples"] = examples[skill_idx]`,
rendered as a positional zip: entry `i` receives example list `i`; entries
past the end of `examples` are untouched, examples past the end of the
entries are ignored. -/
def attachExamples : List SkillEntry → List (List String) → List SkillEntry
  | [], _ => []
  | es, [] => es
  | e :: es, ex :: exs => { e with examples := some ex } :: attachExamples es exs

/-- The `skills` section of the card built by `_create_agent_card`:
the base comprehension, then — only when the `examples` key is present —
the positional attachment loop. -/
def cardSkills (skills : List String) (examples : Option (List (List String))) : List SkillEntry :=
  match examples with
  | none => mkSkillEntries skills
  | some exs => attachExamples (mkSkillEntries skills) exs

theorem attachExamples_length (es : List SkillEntry) (exs : List (List String)) :
    (attachExamples es exs).length = es.length := by
  induction es generalizing exs with
  | nil => simp [attachExamples]
  | cons e es ih =>
    cases exs with
    | nil => simp [attachExamples]
    | cons ex exs => simp [attachExamples, ih]

theorem attachExamples_getElem? (es : List SkillEntry) (exs : List (List String)) (i : Nat) :
    (attachExamples es exs)[i]? =
      (es[i]?).map fun e =>
        match exs[i]? with
        | some ex => { e with examples := some ex }
        | none => e := by
  induction es generalizing exs i with
  | nil => simp [attachExamples]
  | cons e es ih =>
    cases exs with
    | nil =>
      cases h : (e :: es)[i]? <;> simp [attachExamples, h]
    | cons ex exs =>
      cases i with
      | zero => simp [attachExamples]
      | succ j => simp [attachExamples, ih]

/-- C8, confirmed.  For skills `s_0..s_(n-1)` and examples lists
`e_0..e_(m-1)`, the generated card has exactly `n` skill entries, entry
`i` is named `s_i` (same order, nothing synthesized or reordered), and
entry `i` carries `e_i` exactly when `i < m`, otherwise no examples key;
example lists beyond index `n - 1` are ignored. -/
theorem c8_card_skills_positional (skills : List String) (exs : List (List String)) :
    (cardSkills skills (some exs)).length = skills.length
    ∧ ∀ i : Nat,
        ((cardSkills skills (some exs))[i]?).map SkillEntry.name = skills[i]?
        ∧ ((cardSkills skills (some exs))[i]?).map SkillEntry.examples
            = if i < skills.length then some exs[i]? else none := by
  constructor
  · simp [cardSkills, attachExamples_length, mkSkillEntries]
  · intro i
    by_cases hi : i < skills.length
    · have hsk : skills[i]? = some skills[i] := List.getElem?_eq_getElem hi
      constructor
      · rw [cardSkills, attachExamples_getElem?, mkSkillEntries, List.getElem?_map, hsk]
        cases hex : exs[i]? <;> simp [hex]
      · rw [if_pos hi, cardSkills, attachExamples_getElem?, mkSkillEntries,
          List.getElem?_map, hsk]
        cases hex : exs[i]? <;> simp [hex]
    · have hsk : skills[i]? = none := by
        rw [List.getElem?_eq_none_iff]
        omega
      constructor
      · rw [cardSkills, attachExamples_getElem?, mkSkillEntries, List.getElem?_map, hsk]
        simp
      · rw [if_neg hi, cardSkills, attachExamples_getElem?, mkSkillEntries,
          List.getElem?_map, hsk]
        simp

end A2A
